import Mathlib

/-!
Verification of the goeip EtherNet/IP / CIP stack.

Shallow embedding of the Go sources: bytes are `Nat` values below 256, byte
strings are `List Nat`, little-endian integer fields are decoded and encoded
explicitly, Go maps become association lists, and Go `(value, error)` pairs
become `Option` / `Except`. Each definition mirrors one Go function and keeps
its name where Lean allows it.
-/

namespace GoEIP

/-! ## Byte-level helpers (little-endian, as in encoding/binary) -/

/-- The two little-endian bytes of a 16-bit value (`binary.LittleEndian.PutUint16`). -/
def le16 (v : Nat) : List Nat := [v % 256, v / 256 % 256]

/-- The four little-endian bytes of a 32-bit value (`binary.LittleEndian.PutUint32`). -/
def le32 (v : Nat) : List Nat :=
  [v % 256, v / 256 % 256, v / 65536 % 256, v / 16777216 % 256]

/-- Little-endian 16-bit read at offset `i` (`binary.LittleEndian.Uint16(bs[i:i+2])`).
Out-of-range positions read as 0; the Go code only reads offsets it has
length-checked, so callers stay within bounds. -/
def u16at (bs : List Nat) (i : Nat) : Nat := bs.getD i 0 + 256 * bs.getD (i + 1) 0

/-- Little-endian 32-bit read at offset `i` (`binary.LittleEndian.Uint32(bs[i:i+4])`). -/
def u32at (bs : List Nat) (i : Nat) : Nat :=
  bs.getD i 0 + 256 * bs.getD (i + 1) 0 + 65536 * bs.getD (i + 2) 0 +
    16777216 * bs.getD (i + 3) 0

/-- Reinterpret a 32-bit unsigned value as Go's `int32`. -/
def toInt32 (v : Nat) : Int := if v < 2147483648 then (v : Int) else (v : Int) - 4294967296

/-- The 32-bit unsigned value whose `int32` reading is `v` (Go's `uint32(i32)`). -/
def ofInt32 (v : Int) : Nat := (v % 4294967296).toNat

/-! ## CIP general status codes (src/unnamed/part_006, "General Status Codes") -/

def StatusSuccess : Nat := 0x00
def StatusConnectionFailure : Nat := 0x01
def StatusPathSegmentError : Nat := 0x04
def StatusPathDestinationUnknown : Nat := 0x05
def StatusServiceNotSupported : Nat := 0x08
def StatusInvalidAttributeValue : Nat := 0x09
def StatusAttributeNotSupported : Nat := 0x14
def StatusObjectDoesNotExist : Nat := 0x16

/-! ## EPATH builder (src/unnamed/part_005)

`Path` is a byte slice; the builders append logical segments choosing the
8-bit form when the value fits in one byte and the padded 16-bit form
otherwise. Arguments have Go type `UINT` (uint16), so segment values are
below 65536 wherever the Go code can call these. -/

/-- `Path.AddClass`: `0x20 <u8>` or `0x21 0x00 <u16 LE>`. -/
def addClass (p : List Nat) (classID : Nat) : List Nat :=
  if classID ≤ 0xFF then p ++ [0x20, classID]
  else p ++ [0x21, 0x00] ++ le16 classID

/-- `Path.AddInstance`: `0x24 <u8>` or `0x25 0x00 <u16 LE>`. -/
def addInstance (p : List Nat) (instanceID : Nat) : List Nat :=
  if instanceID ≤ 0xFF then p ++ [0x24, instanceID]
  else p ++ [0x25, 0x00] ++ le16 instanceID

/-- `Path.AddAttribute`: `0x30 <u8>` or `0x31 0x00 <u16 LE>`. -/
def addAttribute (p : List Nat) (attributeID : Nat) : List Nat :=
  if attributeID ≤ 0xFF then p ++ [0x30, attributeID]
  else p ++ [0x31, 0x00] ++ le16 attributeID

/-- `Path.LenWords`: `byte((len(p) + 1) / 2)` — note the cast to `byte`,
which reduces the word count modulo 256. -/
def lenWords (p : List Nat) : Nat := ((p.length + 1) / 2) % 256

/-- One call against the path builder: the three segment kinds named by the
round-trip invariant. -/
inductive PathOp
  | addClass (c : Nat)
  | addInstance (i : Nat)
  | addAttribute (a : Nat)
deriving DecidableEq, Repr

/-- The value carried by a builder call. -/
def PathOp.val : PathOp → Nat
  | .addClass c => c
  | .addInstance i => i
  | .addAttribute a => a

/-- Apply one builder call to a path, dispatching to the source builders. -/
def applyOp (p : List Nat) : PathOp → List Nat
  | .addClass c => addClass p c
  | .addInstance i => addInstance p i
  | .addAttribute a => addAttribute p a

/-- The path built by a sequence of `AddClass`/`AddInstance`/`AddAttribute`
calls starting from `NewPath()` (the empty path). -/
def buildPath (ops : List PathOp) : List Nat := ops.foldl applyOp []

/-- The bytes appended by a single builder call. -/
def segBytes : PathOp → List Nat
  | .addClass c => if c ≤ 0xFF then [0x20, c] else [0x21, 0x00] ++ le16 c
  | .addInstance i => if i ≤ 0xFF then [0x24, i] else [0x25, 0x00] ++ le16 i
  | .addAttribute a => if a ≤ 0xFF then [0x30, a] else [0x31, 0x00] ++ le16 a

/-- Modelled from the spec: the EPATH logical-segment grammar of §3
(class `0x20/0x21`, instance `0x24/0x25`, attribute `0x30/0x31`, 16-bit
forms padded and little-endian). The repository parses exactly these forms
piecewise — the message router consumes the class segment
(src/pkg/cip/router.go) and the assembly object the instance and attribute
segments (src/pkg/cip/encode.go) — but has no single whole-path parser, so
the decoder the round-trip invariant speaks about is modelled here. -/
def parseSegments : List Nat → Option (List PathOp)
  | [] => some []
  | 0x20 :: c :: rest => (parseSegments rest).map (.addClass c :: ·)
  | 0x21 :: _ :: lo :: hi :: rest => (parseSegments rest).map (.addClass (lo + 256 * hi) :: ·)
  | 0x24 :: i :: rest => (parseSegments rest).map (.addInstance i :: ·)
  | 0x25 :: _ :: lo :: hi :: rest => (parseSegments rest).map (.addInstance (lo + 256 * hi) :: ·)
  | 0x30 :: a :: rest => (parseSegments rest).map (.addAttribute a :: ·)
  | 0x31 :: _ :: lo :: hi :: rest => (parseSegments rest).map (.addAttribute (lo + 256 * hi) :: ·)
  | _ => none

/-! ## Timer codec (src/unnamed/part_006, DecodeTimer / Timer.MarshalCIP)

Canonical Logix layout: 2 reserved bytes, 4-byte status word with EN/TT/DN
in bits 31/30/29, 4-byte PRE, 4-byte ACC — 14 bytes, all little-endian. -/

structure Timer where
  PRE : Int
  ACC : Int
  EN : Bool
  TT : Bool
  DN : Bool
deriving DecidableEq, Repr

def TimerStatusEN : Nat := 31
def TimerStatusTT : Nat := 30
def TimerStatusDN : Nat := 29

/-- `DecodeTimer`: requires at least 14 bytes; status word at offset 2,
PRE at 6, ACC at 10, flags read from status bits 31/30/29. -/
def decodeTimer (data : List Nat) : Option Timer :=
  if data.length < 14 then none
  else
    let status := u32at data 2
    some { PRE := toInt32 (u32at data 6)
           ACC := toInt32 (u32at data 10)
           EN := status.testBit TimerStatusEN
           TT := status.testBit TimerStatusTT
           DN := status.testBit TimerStatusDN }

/-- `Timer.MarshalCIP`: reserved u16 0, then status, PRE, ACC as LE u32. -/
def Timer.marshalCIP (t : Timer) : List Nat :=
  let status := (if t.EN then 2 ^ TimerStatusEN else 0) +
    (if t.TT then 2 ^ TimerStatusTT else 0) + (if t.DN then 2 ^ TimerStatusDN else 0)
  le16 0 ++ le32 status ++ le32 (ofInt32 t.PRE) ++ le32 (ofInt32 t.ACC)

/-! ## Message router (src/pkg/cip/router.go)

`Error{Status, ExtStatus}` is the CIP error type; `Dispatch` returns
`(*MessageRouterResponse, error)`, embedded as `Except CipError MRResponse`
(the only errors `Dispatch` itself creates are CIP `Error` values). A
registered object's `HandleRequest` returns `([]byte, error)` where the
error may or may not be a CIP `Error`; that three-way outcome is
`HandlerResult`. -/

structure CipError where
  status : Nat
  extStatus : List Nat
deriving DecidableEq, Repr

structure MRRequest where
  service : Nat
  requestPath : List Nat
  requestData : List Nat
deriving DecidableEq, Repr

structure MRResponse where
  service : Nat
  reserved : Nat
  generalStatus : Nat
  extStatusSize : Nat
  extStatus : List Nat
  responseData : List Nat
deriving DecidableEq, Repr

/-- Outcome of `Object.HandleRequest`: success bytes, a CIP `Error`, or a
generic (non-CIP) Go error. -/
inductive HandlerResult
  | ok (bytes : List Nat)
  | cipErr (e : CipError)
  | genErr
deriving DecidableEq, Repr

/-- An object handler: `HandleRequest(service, remainingPath, data)`. -/
def Handler : Type := Nat → List Nat → List Nat → HandlerResult

/-- The router's `objects` map, keyed by class ID. -/
def Objects : Type := Nat → Option Handler

/-- `MessageRouter.Dispatch`: peel the leading class segment (`0x20` 8-bit or
`0x21` padded 16-bit), look up the object, and run its handler. Missing or
malformed class segments return a CIP `Error` with `StatusPathSegmentError`
— an error, not a response. An unregistered class returns a response with
`StatusObjectDoesNotExist`; handler CIP errors are copied into the response;
other handler errors fall back to `StatusServiceNotSupported`. -/
def dispatch (objs : Objects) (req : MRRequest) : Except CipError MRResponse :=
  let pathBytes := req.requestPath
  if pathBytes.length = 0 then .error ⟨StatusPathSegmentError, []⟩
  else
    let segType := pathBytes.getD 0 0
    let parsed : Except CipError (Nat × List Nat) :=
      if segType = 0x20 then
        if pathBytes.length < 2 then .error ⟨StatusPathSegmentError, []⟩
        else .ok (pathBytes.getD 1 0, pathBytes.drop 2)
      else if segType = 0x21 then
        if pathBytes.length < 4 then .error ⟨StatusPathSegmentError, []⟩
        else .ok (u16at pathBytes 2, pathBytes.drop 4)
      else .error ⟨StatusPathSegmentError, []⟩
    match parsed with
    | .error e => .error e
    | .ok (classID, remainingPath) =>
      match objs classID with
      | none => .ok { service := req.service ||| 0x80, reserved := 0
                      generalStatus := StatusObjectDoesNotExist
                      extStatusSize := 0, extStatus := [], responseData := [] }
      | some obj =>
        match obj req.service remainingPath req.requestData with
        | .ok respData =>
          .ok { service := req.service ||| 0x80, reserved := 0
                generalStatus := StatusSuccess
                extStatusSize := 0, extStatus := [], responseData := respData }
        | .cipErr e =>
          .ok { service := req.service ||| 0x80, reserved := 0
                generalStatus := e.status
                extStatusSize := e.extStatus.length % 256, extStatus := e.extStatus
                responseData := [] }
        | .genErr =>
          .ok { service := req.service ||| 0x80, reserved := 0
                generalStatus := StatusServiceNotSupported
                extStatusSize := 0, extStatus := [], responseData := [] }

/-- Spec-side decomposition used to state the amended routing claim: the
leading class segment of an EPATH, as a parser. -/
def leadingClass : List Nat → Option (Nat × List Nat)
  | 0x20 :: c :: rest => some (c, rest)
  | 0x21 :: _ :: lo :: hi :: rest => some (lo + 256 * hi, rest)
  | _ => none

/-- Spec-side response builder for a handled request, by handler outcome. -/
def handlerResponse (service : Nat) : HandlerResult → MRResponse
  | .ok bytes =>
    { service := service ||| 0x80, reserved := 0, generalStatus := StatusSuccess
      extStatusSize := 0, extStatus := [], responseData := bytes }
  | .cipErr e =>
    { service := service ||| 0x80, reserved := 0, generalStatus := e.status
      extStatusSize := e.extStatus.length % 256, extStatus := e.extStatus
      responseData := [] }
  | .genErr =>
    { service := service ||| 0x80, reserved := 0
      generalStatus := StatusServiceNotSupported
      extStatusSize := 0, extStatus := [], responseData := [] }

/-! ## Assembly object (src/pkg/cip/encode.go, package assembly)

Instances are a map `id → data`; embedded as an association list with
unique keys (a Go map). `Set_Attribute_Single` on attribute 3 is
size-strict; `Get_Attribute_Single` returns a copy of the data. -/

def AssemblyState : Type := List (Nat × List Nat)

/-- Go map read `ao.instances[instanceID]`. -/
def aLookup (st : AssemblyState) (id : Nat) : Option (List Nat) :=
  match st with
  | [] => none
  | (k, v) :: rest => if k = id then some v else aLookup rest id

/-- Replace the data of instance `id` (the `copy(instance.Data, data)` write;
lengths are known equal at the call site). -/
def aUpdate (st : AssemblyState) (id : Nat) (data : List Nat) : AssemblyState :=
  match st with
  | [] => []
  | (k, v) :: rest => if k = id then (k, data) :: rest else (k, v) :: aUpdate rest id data

/-- `AssemblyObject.GetAttributeSingle`: unknown instance ⇒ 0x16; attribute 3
returns a copy of the data; any other attribute ⇒ 0x14. -/
def getAttributeSingle (st : AssemblyState) (instanceID attrID : Nat) :
    Except CipError (List Nat) :=
  match aLookup st instanceID with
  | none => .error ⟨StatusObjectDoesNotExist, []⟩
  | some data =>
    if attrID = 3 then .ok data
    else .error ⟨StatusAttributeNotSupported, []⟩

/-- `AssemblyObject.SetAttributeSingle`: unknown instance ⇒ 0x16; attribute 3
requires `len(data) == len(instance.Data)` (else 0x09, state unchanged) and
overwrites the stored bytes; any other attribute ⇒ 0x14. Returns the new
state together with the Go error. -/
def setAttributeSingle (st : AssemblyState) (instanceID attrID : Nat) (data : List Nat) :
    AssemblyState × Option CipError :=
  match aLookup st instanceID with
  | none => (st, some ⟨StatusObjectDoesNotExist, []⟩)
  | some stored =>
    if attrID = 3 then
      if data.length ≠ stored.length then (st, some ⟨StatusInvalidAttributeValue, []⟩)
      else (aUpdate st instanceID data, none)
    else (st, some ⟨StatusAttributeNotSupported, []⟩)

/-! ## Implicit-I/O runtime (src/pkg/runtime/runtime.go)

Timestamps and durations are Go `time.Time` / `time.Duration` nanosecond
counts, embedded as unbounded `Int` (int64 overflow is out of range for any
realistic clock and is not modelled). `conn.Assembly` is a pointer to an
assembly instance of which `handlePacket` only uses the `ID`; it is embedded
as that optional ID, with the instance data living in the runtime's
`AssemblyState`. -/

structure IOConnection where
  connectionID : Nat
  rpi : Int
  sequenceCount : Nat
  runIdleHeader : Bool
  assembly : Option Nat
  lastReceive : Int
  lastSend : Int
  timeoutMult : Nat
  isProducer : Bool
  isConsumer : Bool
deriving DecidableEq, Repr

/-- The runtime's connection map plus the assembly object it writes into. -/
structure RuntimeState where
  connections : List (Nat × IOConnection)
  assemblies : AssemblyState

/-- `uint64(4) << conn.TimeoutMult`, converted to a (signed) duration as
`time.Duration(mult)`: the shift wraps modulo 2^64 and values at or above
2^63 read back negative. -/
def timeoutMultValue (m : Nat) : Int :=
  let v := (4 <<< m) % 18446744073709551616
  if v < 9223372036854775808 then (v : Int) else (v : Int) - 18446744073709551616

/-- The body of `checkTimeouts` for one connection: consumers whose
`now - LastReceive` strictly exceeds `RPI * (4 << TimeoutMult)` are removed. -/
def timedOut (now : Int) (c : IOConnection) : Bool :=
  c.isConsumer && (now - c.lastReceive > c.rpi * timeoutMultValue c.timeoutMult)

/-- `Runtime.checkTimeouts`: delete every timed-out consumer from the
connection map; non-consumers are skipped (`continue`). -/
def checkTimeouts (now : Int) (conns : List (Nat × IOConnection)) :
    List (Nat × IOConnection) :=
  conns.filter (fun e => ! timedOut now e.2)

/-- `Runtime.handlePacket`: parse `[item_count=2, address_item(len 4, conn id),
data_item]`, drop unknown framings and unknown connection IDs, refresh
`LastReceive`, and apply the data item's payload to the bound assembly via
`SetAttributeSingle(id, 3, ...)`. When `RunIdleHeader` is set the payload
must hold at least 4 header bytes, which are then skipped: the Run bit of
the header is parsed out in the source (`// Check Run bit (Bit 0)` is
commented out) but never tested, so Idle frames are applied all the same.
Indices are in range for every packet that passes the length checks, as in
the source. -/
def handlePacket (r : RuntimeState) (now : Int) (data : List Nat) : RuntimeState :=
  if data.length < 6 then r
  else
    let itemCount := u16at data 0
    if itemCount ≠ 2 then r
    else
      let len1 := u16at data 4
      if len1 ≠ 4 then r
      else
        let connID := u32at data 6
        let len2 := u16at data 12
        if data.length < 14 + len2 then r
        else
          let payload := (data.drop 14).take len2
          match r.connections.find? (fun e => e.1 = connID) with
          | none => r
          | some (_, conn) =>
            let r1 : RuntimeState :=
              { r with connections :=
                  r.connections.map (fun e =>
                    if e.1 = connID then (e.1, { e.2 with lastReceive := now }) else e) }
            let dataOffset := if conn.runIdleHeader then 4 else 0
            if conn.runIdleHeader ∧ payload.length < 4 then r1
            else
              match conn.assembly with
              | none => r1
              | some instID =>
                { r1 with assemblies :=
                    (setAttributeSingle r1.assemblies instID 3 (payload.drop dataOffset)).1 }

/-! ## Common Packet Format (src/pkg/eip/cpf.go)

Items are `(typeID, data)` pairs; `NewCPFItem` stores `uint16(len(data))`
as the item length, and the encoders/decoders are little-endian. -/

/-- `CommonPacketFormat.Encode` of `NewCommonPacketFormat(items...)`:
`uint16(len(items))`, then for each item its type ID, its stored
`uint16(len(data))` length, and — only when that stored length is
non-zero — the data bytes. -/
def encodeCPF (items : List (Nat × List Nat)) : List Nat :=
  le16 (items.length % 65536) ++
    (items.map (fun it =>
      le16 it.1 ++ le16 (it.2.length % 65536) ++
        (if it.2.length % 65536 > 0 then it.2 else []))).flatten

/-- The item-reading loop of `DecodeCommonPacketFormat`: `n` records of
`{type:u16, length:u16, data:length bytes}`; any short read fails. -/
def decodeCPFItems (n : Nat) (bs : List Nat) : Option (List (Nat × List Nat)) :=
  match n with
  | 0 => some []
  | k + 1 =>
    match bs with
    | t0 :: t1 :: l0 :: l1 :: rest =>
      let len := l0 + 256 * l1
      if rest.length < len then none
      else (decodeCPFItems k (rest.drop len)).map ((t0 + 256 * t1, rest.take len) :: ·)
    | _ => none

/-- `DecodeCommonPacketFormat`: read `item_count`, then that many items;
trailing bytes are ignored. -/
def decodeCommonPacketFormat (data : List Nat) : Option (List (Nat × List Nat)) :=
  match data with
  | c0 :: c1 :: rest => decodeCPFItems (c0 + 256 * c1) rest
  | _ => none

/-- `CommonPacketFormat.FindItemByType`: first match wins. -/
def findItemByType (items : List (Nat × List Nat)) (typeID : Nat) : Option (List Nat) :=
  (items.find? (fun it => it.1 = typeID)).map (·.2)

/-! ## Target server (src/unnamed/part_001, package server)

The per-frame slice of `handleConnection`: one 24-byte encapsulation header
plus its `length` payload bytes in, one outcome out — either a reply byte
string with the connection's next state, or a silent close of the TCP
connection. The `sessionHandle` variable is the connection's only state. -/

structure ServerConnState where
  sessionHandle : Nat
deriving DecidableEq, Repr

inductive FrameOutcome
  | reply (bytes : List Nat) (st : ServerConnState)
  | close
deriving DecidableEq, Repr

/-- The manual `MessageRouterRequest` decode in `handleSendRRData` /
`handleSendUnitData`: service byte, path-size byte, `pathSize*2` path bytes
read with `bytes.Reader.Read` — which only errors when the buffer is already
empty and at least one byte is wanted, and otherwise fills what it can,
leaving the zero-initialised tail of `pathBytes` — then the rest as data. -/
def readMRRequest (bs : List Nat) : Option MRRequest :=
  match bs with
  | svc :: psw :: rest =>
    let n := psw * 2
    if n > 0 ∧ rest.length = 0 then none
    else
      some { service := svc
             requestPath := rest.take n ++ List.replicate (n - rest.length) 0
             requestData := rest.drop n }
  | _ => none

/-- The response re-encode shared by both handlers: service, reserved,
status, ext-status count, ext-status words, data (fields are byte / u16
sized on the wire). -/
def encodeMRResponse (r : MRResponse) : List Nat :=
  [r.service % 256, r.reserved % 256, r.generalStatus % 256, r.extStatusSize % 256] ++
    (r.extStatus.map le16).flatten ++ r.responseData

/-- `Server.handleSendRRData`: strip interface handle and timeout, decode the
CPF, find the Unconnected Message item (0x00B2), decode and dispatch the
message-router request, and wrap the re-encoded response in
`[Null-Address, Unconnected-Message]` behind six zero bytes. Any failure —
including a `Dispatch` error — is a Go error (`none`). -/
def handleSendRRData (objs : Objects) (data : List Nat) : Option (List Nat) :=
  if data.length < 6 then none
  else
    match decodeCommonPacketFormat (data.drop 6) with
    | none => none
    | some cpf =>
      match findItemByType cpf 0x00B2 with
      | none => none
      | some itemData =>
        match readMRRequest itemData with
        | none => none
        | some mrReq =>
          match dispatch objs mrReq with
          | .error _ => none
          | .ok mrResp =>
            some (List.replicate 6 0 ++
              encodeCPF [(0x0000, []), (0x00B2, encodeMRResponse mrResp)])

/-- `Server.handleSendUnitData`: find the Connected Address (0x00A1, at least
4 bytes) and Connected Data (0x00B1) items, peel the 2-byte sequence count,
dispatch the PDU, and echo the address item and sequence count around the
response. -/
def handleSendUnitData (objs : Objects) (data : List Nat) : Option (List Nat) :=
  if data.length < 6 then none
  else
    match decodeCommonPacketFormat (data.drop 6) with
    | none => none
    | some cpf =>
      match findItemByType cpf 0x00A1 with
      | none => none
      | some addrData =>
        if addrData.length < 4 then none
        else
          match findItemByType cpf 0x00B1 with
          | none => none
          | some dataItem =>
            if dataItem.length < 2 then none
            else
              match readMRRequest (dataItem.drop 2) with
              | none => none
              | some mrReq =>
                match dispatch objs mrReq with
                | .error _ => none
                | .ok mrResp =>
                  some (List.replicate 6 0 ++
                    encodeCPF [(0x00A1, addrData),
                      (0x00B1, le16 (u16at dataItem 0) ++ encodeMRResponse mrResp)])

/-- The 24-byte reply header written at the bottom of the read loop:
command, `uint16(len(respData))`, session, status, the request's sender
context, options 0. -/
def respHeader (command respLen session status : Nat) (ctx : List Nat) : List Nat :=
  le16 command ++ le16 (respLen % 65536) ++ le32 session ++ le32 status ++
    (ctx.take 8 ++ List.replicate (8 - ctx.length) 0) ++ le32 0

/-- One iteration of `Server.handleConnection`: parse the header; close the
connection when `length > MaxPacketSize` (4096) before reading any payload;
otherwise handle `RegisterSession` (handle `0x01020304`, "Static for now"),
`UnregisterSession` (close), `SendRRData` / `SendUnitData` (status 0x01 and
an empty body when the handler errors), or answer status 0x01 for anything
else, echoing the sender context. The incoming `sessionHandle` state is
never read. -/
def handleFrame (objs : Objects) (st : ServerConnState) (hdr payload : List Nat) :
    FrameOutcome :=
  let command := u16at hdr 0
  let dataLen := u16at hdr 2
  let session := u32at hdr 4
  let senderContext := (hdr.drop 12).take 8
  if dataLen > 4096 then .close
  else if command = 0x0065 then
    .reply (respHeader command 4 0x01020304 0 senderContext ++ [1, 0, 0, 0])
      ⟨0x01020304⟩
  else if command = 0x0066 then .close
  else if command = 0x006F then
    match handleSendRRData objs payload with
    | some respData => .reply (respHeader command respData.length session 0 senderContext ++ respData) st
    | none => .reply (respHeader command 0 session 1 senderContext) st
  else if command = 0x0070 then
    match handleSendUnitData objs payload with
    | some respData => .reply (respHeader command respData.length session 0 senderContext ++ respData) st
    | none => .reply (respHeader command 0 session 1 senderContext) st
  else
    .reply (respHeader command 0 session 1 senderContext) st

/-- The reply bytes of an outcome, when it is a reply. -/
def FrameOutcome.bytes : FrameOutcome → Option (List Nat)
  | .reply bs _ => some bs
  | .close => none

/-! ## Symbol enumeration (src/pkg/client/discovery.go, Client.ListTags)

The session is abstracted as the result of `SendCIPRequest` for each
instance: a transport error or a message-router response (general status
plus data). Names are byte strings. -/

inductive FetchResult
  | transportErr
  | resp (generalStatus : Nat) (data : List Nat)
deriving DecidableEq, Repr

/-- The attribute-reading loop of `DecodeSymbolAttributesResponse`: `n`
records of `{attrID:u16, status:u16}`, where a zero status is followed by
the attribute value — attribute 1 a counted name (`u16` length then bytes),
attribute 2 a `u16` type code. Later records overwrite earlier ones; short
reads fail. -/
def readSymbolAttrs (n : Nat) (bs : List Nat) (name : List Nat) (ty : Nat) :
    Option (List Nat × Nat) :=
  match n with
  | 0 => some (name, ty)
  | k + 1 =>
    match bs with
    | a0 :: a1 :: s0 :: s1 :: rest =>
      let attrID := a0 + 256 * a1
      let status := s0 + 256 * s1
      if status = 0 then
        if attrID = 1 then
          match rest with
          | n0 :: n1 :: rest2 =>
            let nameLen := n0 + 256 * n1
            if rest2.length < nameLen then none
            else readSymbolAttrs k (rest2.drop nameLen) (rest2.take nameLen) ty
          | _ => none
        else if attrID = 2 then
          match rest with
          | t0 :: t1 :: rest2 => readSymbolAttrs k rest2 name (t0 + 256 * t1)
          | _ => none
        else readSymbolAttrs k rest name ty
      else readSymbolAttrs k rest name ty
    | _ => none

/-- `DecodeSymbolAttributesResponse`: attribute count then the records. -/
def decodeSymbolAttributesResponse (data : List Nat) : Option (List Nat × Nat) :=
  match data with
  | c0 :: c1 :: rest => readSymbolAttrs (c0 + 256 * c1) rest [] 0
  | _ => none

/-- The body of one `ListTags` loop iteration for instance `id`: transport
errors are logged and skipped (`continue`), every non-success status is
skipped (the source singles out 0x16 and 0x05 but continues in the other
arm too), decode failures are skipped, and a non-empty name contributes one
`SymbolInstance`. -/
def fetchSymbol (fetch : Nat → FetchResult) (id : Nat) : List (Nat × List Nat × Nat) :=
  match fetch id with
  | .transportErr => []
  | .resp st data =>
    if st ≠ StatusSuccess then []
    else
      match decodeSymbolAttributesResponse data with
      | none => []
      | some (name, ty) => if name ≠ [] then [(id, name, ty)] else []

/-- `Client.ListTags` after the class query produced `maxInstance`: iterate
instances 1 through `maxInstance`, appending each instance's contribution. -/
def listTags (maxInstance : Nat) (fetch : Nat → FetchResult) :
    List (Nat × List Nat × Nat) :=
  (List.range maxInstance).foldl (fun acc i => acc ++ fetchSymbol fetch (i + 1)) []

/-! ## Concrete fixtures for witnesses and counterexamples -/

/-- A router object map with one class (0x04) whose handler succeeds with
two fixed bytes — the shape of the mock objects in the repository's tests. -/
def demoObjects : Objects := fun c => if c = 4 then some (fun _ _ _ => .ok [0xDE, 0xAD]) else none

/-- The byte string of scenario 3 of the spec, exactly as printed there:
`00 00 | E0 00 00 00 | E8 03 00 00 | F4 01 00 00`. -/
def specTimerBytes : List Nat :=
  [0x00, 0x00, 0xE0, 0x00, 0x00, 0x00, 0xE8, 0x03, 0x00, 0x00, 0xF4, 0x01, 0x00, 0x00]

/-- The 14 bytes that actually carry `Timer{PRE=1000, ACC=500, EN, TT, DN}`:
the status word `0xE0000000` is little-endian, so its set bits live in the
fourth status byte. -/
def runTimerBytes : List Nat :=
  [0x00, 0x00, 0x00, 0x00, 0x00, 0xE0, 0xE8, 0x03, 0x00, 0x00, 0xF4, 0x01, 0x00, 0x00]

/-- 128 16-bit class segments: 512 path bytes, 256 words. -/
def wideOps : List PathOp := List.replicate 128 (.addClass 0x1234)

/-- An encoded `MessageRouterRequest`: service 0x0E, two path words,
class 4 / instance 1. -/
def rrMrReqBytes : List Nat := [0x0E, 0x02, 0x20, 0x04, 0x24, 0x01]

/-- A complete `SendRRData` payload: interface handle and timeout zeros, then
a CPF of a Null Address item and an Unconnected Message item. -/
def rrPayload : List Nat :=
  List.replicate 6 0 ++ encodeCPF [(0x0000, []), (0x00B2, rrMrReqBytes)]

/-- The 24-byte header of that `SendRRData` frame (session 7, context 9s). -/
def rrHdr : List Nat :=
  le16 0x6F ++ le16 rrPayload.length ++ le32 7 ++ le32 0 ++ [9, 9, 9, 9, 9, 9, 9, 9] ++ le32 0

/-- A `RegisterSession` header as sent by connection A. -/
def regHdrA : List Nat :=
  le16 0x65 ++ le16 4 ++ le32 0 ++ le32 0 ++ [1, 2, 3, 4, 5, 6, 7, 8] ++ le32 0

/-- A `RegisterSession` header as sent by a second, distinct connection B. -/
def regHdrB : List Nat :=
  le16 0x65 ++ le16 4 ++ le32 0 ++ le32 0 ++ [8, 7, 6, 5, 4, 3, 2, 1] ++ le32 0

/-- A header whose length field (5000) exceeds `MaxPacketSize`. -/
def bigHdr : List Nat :=
  le16 0x6F ++ le16 5000 ++ le32 0 ++ le32 0 ++ List.replicate 8 0 ++ le32 0

/-- A header with an unsupported command (0x0099) and no payload. -/
def unkHdr : List Nat :=
  le16 0x99 ++ le16 0 ++ le32 0 ++ le32 0 ++ List.replicate 8 0 ++ le32 0

/-- A consumer connection with the Run/Idle header enabled, bound to
assembly instance 100. -/
def idleConnection : IOConnection :=
  { connectionID := 1, rpi := 100000000, sequenceCount := 0, runIdleHeader := true
    assembly := some 100, lastReceive := 0, lastSend := 0, timeoutMult := 0
    isProducer := false, isConsumer := true }

/-- A runtime holding that connection and a 2-byte assembly instance 100. -/
def idleRuntime : RuntimeState :=
  { connections := [(1, idleConnection)], assemblies := [(100, [0xAA, 0xBB])] }

/-- A UDP frame for connection 1 whose Run/Idle header is `0x00000000`
(low bit clear: Idle), followed by two data bytes. -/
def idleFrame : List Nat :=
  [2, 0, 0xA1, 0, 4, 0, 1, 0, 0, 0, 0xB1, 0, 6, 0, 0, 0, 0, 0, 0x55, 0x66]

/-- The watchdog scenario of the spec: a consumer with RPI 100 ms,
multiplier 0 and `last_receive` 500 ms in the past (times in nanoseconds). -/
def staleConsumer : IOConnection :=
  { connectionID := 1, rpi := 100000000, sequenceCount := 0, runIdleHeader := false
    assembly := none, lastReceive := 0, lastSend := 0, timeoutMult := 0
    isProducer := false, isConsumer := true }

/-- A producer-only connection equally stale. -/
def staleProducer : IOConnection :=
  { staleConsumer with connectionID := 2, isProducer := true, isConsumer := false }

def demoConns : List (Nat × IOConnection) := [(1, staleConsumer), (2, staleProducer)]

/-- A `Get_Attribute_List` reply carrying name `[84]` ("T") and type 0x00C4. -/
def symAttrBytes : List Nat := [2, 0, 1, 0, 0, 0, 1, 0, 84, 2, 0, 0, 0, 0xC4, 0]

/-- A session whose request for instance 1 fails at the transport and whose
other requests succeed with `symAttrBytes`. -/
def demoFetch : Nat → FetchResult :=
  fun i => if i = 1 then .transportErr else .resp 0 symAttrBytes

/-- A one-instance assembly object: instance 100 holds two bytes. -/
def demoAssembly : AssemblyState := [(100, [0xAA, 0xBB])]

/-! ## Helper lemmas -/

theorem applyOp_eq_append (p : List Nat) (op : PathOp) : applyOp p op = p ++ segBytes op := by
  cases op <;> simp only [applyOp, segBytes, addClass, addInstance, addAttribute] <;>
    split <;> simp [List.append_assoc]

theorem buildPath_eq_flatten (ops : List PathOp) :
    buildPath ops = (ops.map segBytes).flatten := by
  suffices h : ∀ p, ops.foldl applyOp p = p ++ (ops.map segBytes).flatten by
    simpa using h []
  induction ops with
  | nil => intro p; simp
  | cons op rest ih =>
    intro p
    simp [List.foldl_cons, ih, applyOp_eq_append, List.append_assoc]

theorem parseSegments_seg_append (op : PathOp) (rest : List Nat) (h : op.val < 65536) :
    parseSegments (segBytes op ++ rest) = (parseSegments rest).map (op :: ·) := by
  have hval : ∀ v : Nat, v < 65536 → v % 256 + 256 * (v / 256 % 256) = v := by
    intro v hv; omega
  cases op with
  | addClass c =>
    by_cases hc : c ≤ 0xFF
    · simp [segBytes, hc, parseSegments]
    · simp only [segBytes, hc, if_false, le16, List.cons_append, List.nil_append,
        parseSegments, List.append_eq]
      rw [hval c h]
  | addInstance i =>
    by_cases hi : i ≤ 0xFF
    · simp [segBytes, hi, parseSegments]
    · simp only [segBytes, hi, if_false, le16, List.cons_append, List.nil_append,
        parseSegments, List.append_eq]
      rw [hval i h]
  | addAttribute a =>
    by_cases ha : a ≤ 0xFF
    · simp [segBytes, ha, parseSegments]
    · simp only [segBytes, ha, if_false, le16, List.cons_append, List.nil_append,
        parseSegments, List.append_eq]
      rw [hval a h]

theorem parseSegments_flatten (ops : List PathOp) (h : ∀ op ∈ ops, op.val < 65536) :
    parseSegments ((ops.map segBytes).flatten) = some ops := by
  induction ops with
  | nil => simp [parseSegments]
  | cons op rest ih =>
    have hop := h op (List.mem_cons_self op rest)
    have hrest : ∀ o ∈ rest, o.val < 65536 := fun o ho => h o (List.mem_cons_of_mem _ ho)
    simp [parseSegments_seg_append op _ hop, ih hrest]

theorem aLookup_aUpdate_self (st : AssemblyState) (id : Nat) (d : List Nat)
    (h : (aLookup st id).isSome) : aLookup (aUpdate st id d) id = some d := by
  induction st with
  | nil => simp [aLookup] at h
  | cons kv rest ih =>
    by_cases hk : kv.1 = id
    · simp [aUpdate, aLookup, hk]
    · simp only [aLookup, hk, if_false] at h
      simp [aUpdate, aLookup, hk, ih h]

theorem timeoutMultValue_small (m : Nat) (hm : m ≤ 7) :
    timeoutMultValue m = ((4 <<< m : Nat) : Int) := by
  interval_cases m <;> decide

theorem filter_congr_mem {α : Type} (p q : α → Bool) (l : List α)
    (h : ∀ a ∈ l, p a = q a) : l.filter p = l.filter q := by
  induction l with
  | nil => rfl
  | cons a rest ih =>
    have ha := h a (List.mem_cons_self a rest)
    have hrest : ∀ x ∈ rest, p x = q x := fun x hx => h x (List.mem_cons_of_mem _ hx)
    simp [List.filter_cons, ha, ih hrest]

theorem foldl_append_eq_flatten {α β : Type} (f : α → List β) (l : List α) (acc : List β) :
    l.foldl (fun a x => a ++ f x) acc = acc ++ (l.map f).flatten := by
  induction l generalizing acc with
  | nil => simp
  | cons x rest ih => simp [List.foldl_cons, ih, List.append_assoc]

theorem leadingClass_other (s : Nat) (bs : List Nat) (h32 : s ≠ 32) (h33 : s ≠ 33) :
    leadingClass (s :: bs) = none := by
  rw [leadingClass.eq_def]
  split <;> simp_all

/-! ## Claim theorems -/

/-- C5 counterexample: decoding the spec's 14 bytes as printed yields
`EN=TT=DN=false` — the flag byte `E0` sits in the low-order position of the
little-endian status word, where bits 31..29 are clear — and re-encoding the
claimed timer does not reproduce those bytes. -/
theorem decodeTimer_spec_bytes_flags_clear :
    decodeTimer specTimerBytes =
      some { PRE := 1000, ACC := 500, EN := false, TT := false, DN := false } ∧
    Timer.marshalCIP { PRE := 1000, ACC := 500, EN := true, TT := true, DN := true } ≠
      specTimerBytes := by
  constructor
  · decide
  · decide

/-- C5 (amended): with the status word's bytes in little-endian order —
`00 00 | 00 00 00 E0 | E8 03 00 00 | F4 01 00 00` — the Timer decoder yields
`Timer{PRE=1000, ACC=500, EN, TT, DN}`, and re-encoding that timer yields
exactly the same 14 bytes. -/
theorem decodeTimer_roundtrip_corrected :
    decodeTimer runTimerBytes =
      some { PRE := 1000, ACC := 500, EN := true, TT := true, DN := true } ∧
    Timer.marshalCIP { PRE := 1000, ACC := 500, EN := true, TT := true, DN := true } =
      runTimerBytes := by
  constructor
  · decide
  · decide

set_option maxRecDepth 8000 in
/-- C8 counterexample: 128 `AddClass(0x1234)` calls build a 512-byte path
whose true word count is 256, but `LenWords` casts to `byte` and reports 0. -/
theorem lenWords_wraps_at_256_words :
    lenWords (buildPath wideOps) ≠ ((buildPath wideOps).length + 1) / 2 := by
  decide

/-- C8 (amended): for any builder-call sequence over `UINT` values, each
value takes the 2-byte 8-bit segment exactly when it fits in one byte (and
the padded 4-byte 16-bit segment otherwise), parsing the built path returns
the calls in order with their values, and `LenWords` reports
`(bytes + 1) / 2` reduced modulo 256 (the claimed identity without the
`byte` cast holds only below 256 words). -/
theorem path_build_parse_roundtrip (ops : List PathOp) (h : ∀ op ∈ ops, op.val < 65536) :
    parseSegments (buildPath ops) = some ops ∧
    buildPath ops = (ops.map segBytes).flatten ∧
    (∀ op ∈ ops, (segBytes op).length = if op.val ≤ 0xFF then 2 else 4) ∧
    lenWords (buildPath ops) = ((buildPath ops).length + 1) / 2 % 256 := by
  refine ⟨?_, buildPath_eq_flatten ops, ?_, rfl⟩
  · rw [buildPath_eq_flatten]; exact parseSegments_flatten ops h
  · intro op _
    cases op <;> simp only [segBytes, PathOp.val] <;> split <;> simp [le16]

/-- C8 witness: a class, a 16-bit instance and an attribute round-trip. -/
theorem path_build_parse_roundtrip_witness :
    parseSegments (buildPath [.addClass 0x6B, .addInstance 0x1234, .addAttribute 7]) =
      some [.addClass 0x6B, .addInstance 0x1234, .addAttribute 7] ∧
    buildPath [.addClass 0x6B, .addInstance 0x1234, .addAttribute 7] =
      (([.addClass 0x6B, .addInstance 0x1234, .addAttribute 7] : List PathOp).map segBytes).flatten ∧
    (∀ op ∈ ([.addClass 0x6B, .addInstance 0x1234, .addAttribute 7] : List PathOp),
      (segBytes op).length = if op.val ≤ 0xFF then 2 else 4) ∧
    lenWords (buildPath [.addClass 0x6B, .addInstance 0x1234, .addAttribute 7]) =
      ((buildPath [.addClass 0x6B, .addInstance 0x1234, .addAttribute 7]).length + 1) / 2 % 256 := by
  have h := path_build_parse_roundtrip [.addClass 0x6B, .addInstance 0x1234, .addAttribute 7]
    (by decide)
  exact ⟨h.1, h.2.1, h.2.2.1, h.2.2.2⟩

/-- C10: on a registered assembly instance, `Set_Attribute_Single` on
attribute 3 with a wrong-length buffer returns `InvalidAttributeValue`
(0x09) and leaves the state untouched; with a matching length it overwrites
the stored bytes, after which `Get_Attribute_Single` on attribute 3 returns
exactly the new bytes (the Go code returns a fresh copy, so callers never
alias the stored buffer). -/
theorem assembly_attribute3_size_strict (st : AssemblyState) (id : Nat)
    (stored data : List Nat) (h : aLookup st id = some stored) :
    (data.length ≠ stored.length →
      setAttributeSingle st id 3 data = (st, some ⟨StatusInvalidAttributeValue, []⟩)) ∧
    (data.length = stored.length →
      setAttributeSingle st id 3 data = (aUpdate st id data, none) ∧
      getAttributeSingle (aUpdate st id data) id 3 = .ok data) ∧
    getAttributeSingle st id 3 = .ok stored := by
  refine ⟨fun hne => ?_, fun heq => ⟨?_, ?_⟩, ?_⟩
  · simp [setAttributeSingle, h, hne]
  · simp [setAttributeSingle, h, heq]
  · have : (aLookup st id).isSome := by simp [h]
    simp [getAttributeSingle, aLookup_aUpdate_self st id data this]
  · simp [getAttributeSingle, h]

/-- C10 witness: instance 100 holds two bytes; a 3-byte write is refused
with 0x09, a 2-byte write lands, and reads return the stored bytes. -/
theorem assembly_attribute3_size_strict_witness :
    setAttributeSingle demoAssembly 100 3 [1, 2, 3] =
      (demoAssembly, some ⟨StatusInvalidAttributeValue, []⟩) ∧
    setAttributeSingle demoAssembly 100 3 [1, 2] = ([(100, [1, 2])], none) ∧
    getAttributeSingle [(100, [1, 2])] 100 3 = .ok [1, 2] ∧
    getAttributeSingle demoAssembly 100 3 = .ok [0xAA, 0xBB] := by
  have h3 := assembly_attribute3_size_strict demoAssembly 100 [0xAA, 0xBB] [1, 2, 3] (by decide)
  have h2 := assembly_attribute3_size_strict demoAssembly 100 [0xAA, 0xBB] [1, 2] (by decide)
  refine ⟨h3.1 (by decide), ?_, ?_, h2.2.2⟩
  · have := (h2.2.1 (by decide)).1
    simpa using this
  · have := (h2.2.1 (by decide)).2
    simpa using this

/-- C4: one watchdog pass keeps exactly the connections that are not
consumers timed out by `now - last_receive > rpi * (4 << timeout_mult)`
(equivalently, removes exactly the timed-out consumers); connections
without the consumer role survive no matter how stale `last_receive` is;
and a second pass at the same instant changes nothing. The multiplier
hypothesis matches `timeout_mult ∈ {0..7}` from `Forward_Open`. -/
theorem checkTimeouts_removes_exactly_expired_consumers (now : Int)
    (conns : List (Nat × IOConnection)) (h : ∀ e ∈ conns, e.2.timeoutMult ≤ 7) :
    checkTimeouts now conns = conns.filter (fun e =>
      ! (e.2.isConsumer &&
        decide (now - e.2.lastReceive > e.2.rpi * ((4 <<< e.2.timeoutMult : Nat) : Int)))) ∧
    (∀ e ∈ conns, e.2.isConsumer = false → e ∈ checkTimeouts now conns) ∧
    checkTimeouts now (checkTimeouts now conns) = checkTimeouts now conns := by
  refine ⟨?_, ?_, ?_⟩
  · refine filter_congr_mem _ _ conns (fun e he => ?_)
    rw [timedOut, timeoutMultValue_small e.2.timeoutMult (h e he)]
  · intro e he hcons
    simp [checkTimeouts, List.mem_filter, he, timedOut, hcons]
  · simp [checkTimeouts, List.filter_filter]

/-- C4 witness: the spec's watchdog scenario — a consumer with RPI 100 ms,
multiplier 0 and `last_receive` 500 ms old is removed by one tick while an
equally stale producer-only connection stays, and a second tick is a
no-op. -/
theorem checkTimeouts_removes_exactly_expired_consumers_witness :
    (checkTimeouts 500000000 demoConns = demoConns.filter (fun e =>
      ! (e.2.isConsumer &&
        decide (500000000 - e.2.lastReceive > e.2.rpi * ((4 <<< e.2.timeoutMult : Nat) : Int)))) ∧
    (∀ e ∈ demoConns, e.2.isConsumer = false → e ∈ checkTimeouts 500000000 demoConns) ∧
    checkTimeouts 500000000 (checkTimeouts 500000000 demoConns) =
      checkTimeouts 500000000 demoConns) ∧
    checkTimeouts 500000000 demoConns = [(2, staleProducer)] := by
  refine ⟨checkTimeouts_removes_exactly_expired_consumers 500000000 demoConns ?_, ?_⟩
  · decide
  · decide

/-- C9 counterexample: with `max_instance = 2`, a transport failure on
instance 1 and a good reply on instance 2, `ListTags` does not terminate at
the failure — it continues and returns instance 2's symbol. The claim's
"a transport failure on any instance request terminates the enumeration"
fails: the code logs the error and `continue`s. -/
theorem listTags_continues_after_transport_error :
    demoFetch 1 = .transportErr ∧ listTags 2 demoFetch = [(2, [84], 0xC4)] := by
  exact ⟨rfl, by decide⟩

/-- C9 (amended): enumeration visits every instance 1..max_instance
independently: the result is the concatenation of per-instance
contributions, an instance whose reply has general status
`ObjectDoesNotExist` (0x16) or `PathDestinationUnknown` (0x05) contributes
nothing, and an instance whose request fails at the transport also
contributes nothing — in both cases enumeration continues. (Only a failure
of the initial symbol-class query, before the loop, aborts `ListTags`.) -/
theorem listTags_per_instance_characterization (maxInstance : Nat)
    (fetch : Nat → FetchResult) :
    listTags maxInstance fetch =
      ((List.range maxInstance).map (fun i => fetchSymbol fetch (i + 1))).flatten ∧
    (∀ id, fetch id = .transportErr → fetchSymbol fetch id = []) ∧
    (∀ id st data, fetch id = .resp st data →
      st = StatusObjectDoesNotExist ∨ st = StatusPathDestinationUnknown →
      fetchSymbol fetch id = []) := by
  refine ⟨?_, ?_, ?_⟩
  · simpa using foldl_append_eq_flatten (fun i => fetchSymbol fetch (i + 1))
      (List.range maxInstance) []
  · intro id hid
    simp [fetchSymbol, hid]
  · intro id st data hid hst
    have : st ≠ StatusSuccess := by
      rcases hst with h | h <;> simp [h, StatusSuccess, StatusObjectDoesNotExist,
        StatusPathDestinationUnknown]
    simp [fetchSymbol, hid, this]

/-- C9 witness: the characterization applied to the two-instance session of
the counterexample scenario. -/
theorem listTags_per_instance_characterization_witness :
    listTags 2 demoFetch =
      ((List.range 2).map (fun i => fetchSymbol demoFetch (i + 1))).flatten ∧
    fetchSymbol demoFetch 1 = [] := by
  exact ⟨(listTags_per_instance_characterization 2 demoFetch).1,
    (listTags_per_instance_characterization 2 demoFetch).2.1 1 rfl⟩

/-- C2: evaluation of `handlePacket` at the failing input. The incoming
frame's 32-bit Run/Idle header is `0x00000000` — low bit clear, Idle — yet
the bound assembly instance 100 is overwritten from `[0xAA, 0xBB]` to the
frame's remaining bytes `[0x55, 0x66]`: the source skips the 4 header bytes
but never tests the Run bit (the check is present only as a comment), so
Idle frames are applied like Run frames. -/
theorem handlePacket_applies_idle_frame :
    u32at idleFrame 14 = 0 ∧
    aLookup idleRuntime.assemblies 100 = some [0xAA, 0xBB] ∧
    aLookup (handlePacket idleRuntime 42 idleFrame).assemblies 100 = some [0x55, 0x66] := by
  decide

/-- C1 counterexample: a request with an empty path is answered by
`Dispatch` with a Go `error` (a CIP `Error` of status 0x04), not with a
`MessageRouterResponse` carrying `general_status` 0x04 — so the claim that
such failures are never surfaced as an error instead of a response fails. -/
theorem dispatch_empty_path_is_error :
    dispatch demoObjects { service := 0x0E, requestPath := [], requestData := [] } =
      .error ⟨StatusPathSegmentError, []⟩ ∧
    dispatch demoObjects { service := 0x0E, requestPath := [0x21, 0x00], requestData := [] } =
      .error ⟨StatusPathSegmentError, []⟩ := by
  exact ⟨rfl, rfl⟩

/-- C1 (amended): `Dispatch` never fails with a transport-level error, but a
missing or malformed leading class segment makes it return a CIP `Error`
value of status `PathSegmentError` (0x04) instead of a response (the target
server then answers with encapsulation status 0x01); when the class segment
parses, the result is always a response — `ObjectDoesNotExist` (0x16) for an
unregistered class, the handler's CIP status for application errors,
`ServiceNotSupported` (0x08) for non-CIP handler errors, and the handler's
bytes on success. -/
theorem dispatch_characterization (objs : Objects) (req : MRRequest) :
    dispatch objs req =
      match leadingClass req.requestPath with
      | none => .error ⟨StatusPathSegmentError, []⟩
      | some (classID, remainingPath) =>
        match objs classID with
        | none => .ok { service := req.service ||| 0x80, reserved := 0
                        generalStatus := StatusObjectDoesNotExist
                        extStatusSize := 0, extStatus := [], responseData := [] }
        | some obj =>
          .ok (handlerResponse req.service (obj req.service remainingPath req.requestData)) := by
  rcases req with ⟨svc, path, data⟩
  rcases path with _ | ⟨s, rest⟩
  · rfl
  · by_cases h32 : s = 32
    · subst h32
      rcases rest with _ | ⟨c, rest2⟩
      · rfl
      · have hlen : ¬ (rest2.length + 1 + 1 < 2) := by omega
        cases hobj : objs c
        · simp [dispatch, leadingClass, hobj, hlen]
        · rename_i obj
          cases hres : obj svc rest2 data <;>
            simp [dispatch, leadingClass, hobj, hres, handlerResponse, hlen]
    · by_cases h33 : s = 33
      · subst h33
        rcases rest with _ | ⟨b1, _ | ⟨b2, _ | ⟨b3, rest3⟩⟩⟩
        · rfl
        · rfl
        · rfl
        · have hlen : ¬ (rest3.length + 1 + 1 + 1 + 1 < 4) := by omega
          cases hobj : objs (b2 + 256 * b3)
          · simp [dispatch, leadingClass, u16at, hobj, hlen]
          · rename_i obj
            cases hres : obj svc rest3 data <;>
              simp [dispatch, leadingClass, u16at, hobj, hres, handlerResponse, hlen]
      · rw [leadingClass_other s rest h32 h33]
        simp [dispatch, h32, h33]

/-- C3 counterexample: a connection that has never sent `RegisterSession`
(state 0) sends `SendRRData` as its first frame; the server does not answer
with encapsulation status 0x01 — the reply's status field is 0 and its body
carries the dispatched router response (the handler's bytes `DE AD`),
because `handleConnection` keeps no registration state. -/
theorem handleFrame_unregistered_sendrrdata_processed :
    ((handleFrame demoObjects ⟨0⟩ rrHdr rrPayload).bytes.map (fun bs => u32at bs 8)) =
      some 0 ∧
    ((handleFrame demoObjects ⟨0⟩ rrHdr rrPayload).bytes.map (fun bs => bs.drop 44)) =
      some [0xDE, 0xAD] := by
  decide

/-- C3 (amended): the per-connection state machine does not gate commands:
the reply bytes never depend on the connection's session state, so
`SendRRData` and `SendUnitData` are dispatched to the router whether or not
a `RegisterSession` ever happened; only commands outside
{`RegisterSession`, `UnregisterSession`, `SendRRData`, `SendUnitData`} are
answered with encapsulation status 0x01 (in every state). -/
theorem handleFrame_ignores_session_state (objs : Objects) (st st2 : ServerConnState)
    (hdr payload : List Nat) :
    (handleFrame objs st hdr payload).bytes = (handleFrame objs st2 hdr payload).bytes ∧
    (u16at hdr 2 ≤ 4096 → u16at hdr 0 ∉ ([0x65, 0x66, 0x6F, 0x70] : List Nat) →
      handleFrame objs st hdr payload =
        .reply (respHeader (u16at hdr 0) 0 (u32at hdr 4) 1 ((hdr.drop 12).take 8)) st) := by
  constructor
  · simp only [handleFrame]
    split_ifs <;>
      cases hh : handleSendRRData objs payload <;>
        cases hh2 : handleSendUnitData objs payload <;>
          simp [hh, hh2, FrameOutcome.bytes]
  · intro hle hcmd
    simp only [List.mem_cons, List.mem_singleton, not_or] at hcmd
    obtain ⟨h65, h66, h6F, h70⟩ := hcmd
    have hgt : ¬ (u16at hdr 2 > 4096) := by omega
    simp [handleFrame, hgt, h65, h66, h6F, h70]

/-- C3 witness: an unsupported command (0x0099) is answered with status 0x01
regardless of state, and the reply bytes agree across two states. -/
theorem handleFrame_ignores_session_state_witness :
    (handleFrame demoObjects ⟨0⟩ unkHdr []).bytes =
      (handleFrame demoObjects ⟨5⟩ unkHdr []).bytes ∧
    handleFrame demoObjects ⟨0⟩ unkHdr [] =
      .reply (respHeader (u16at unkHdr 0) 0 (u32at unkHdr 4) 1 ((unkHdr.drop 12).take 8))
        ⟨0⟩ := by
  exact ⟨(handleFrame_ignores_session_state demoObjects ⟨0⟩ ⟨5⟩ unkHdr []).1,
    (handleFrame_ignores_session_state demoObjects ⟨0⟩ ⟨5⟩ unkHdr []).2 (by decide)
      (by decide)⟩

/-- C6: evaluation at the failing input. Two distinct connections (different
sender contexts) each complete `RegisterSession` from the fresh state; the
source assigns the literal `0x01020304` ("Static for now, or random"), so
both replies carry the same session handle — non-zero, as the claim also
says, but not unique per connection. -/
theorem registerSession_handle_constant :
    ((handleFrame demoObjects ⟨0⟩ regHdrA [1, 0, 0, 0]).bytes.map (fun bs => u32at bs 4)) =
      some 0x01020304 ∧
    ((handleFrame demoObjects ⟨0⟩ regHdrB [1, 0, 0, 0]).bytes.map (fun bs => u32at bs 4)) =
      some 0x01020304 ∧
    (0x01020304 : Nat) ≠ 0 := by
  decide

/-- C7: a frame whose header length field exceeds `MaxPacketSize` (4096)
makes the server close the connection within that read cycle, emitting no
reply bytes; a frame whose length field is at most 4096 is never closed on
this ground — every command other than `UnregisterSession` (which closes
the connection deliberately) produces a reply. -/
theorem handleFrame_oversize_close (objs : Objects) (st : ServerConnState)
    (hdr payload : List Nat) :
    (u16at hdr 2 > 4096 → handleFrame objs st hdr payload = .close) ∧
    (u16at hdr 2 ≤ 4096 → u16at hdr 0 ≠ 0x66 →
      handleFrame objs st hdr payload ≠ .close) := by
  constructor
  · intro hgt
    simp [handleFrame, hgt]
  · intro hle hcmd
    simp only [handleFrame]
    split_ifs
    · exact ((by omega : False).elim)
    · simp
    · cases hh : handleSendRRData objs payload <;> simp [hh]
    · cases hh2 : handleSendUnitData objs payload <;> simp [hh2]
    · simp

/-- C7 witness: a length-5000 frame closes the connection; the length-0
unsupported-command frame does not. -/
theorem handleFrame_oversize_close_witness :
    handleFrame demoObjects ⟨0⟩ bigHdr [] = .close ∧
    handleFrame demoObjects ⟨0⟩ unkHdr [] ≠ .close := by
  exact ⟨(handleFrame_oversize_close demoObjects ⟨0⟩ bigHdr []).1 (by decide),
    (handleFrame_oversize_close demoObjects ⟨0⟩ unkHdr []).2 (by decide) (by decide)⟩

end GoEIP
